import Mathlib

/-!
Verification of the `go-arm-deployment` CLI (main.go dispatch, the `push`
handler, and the upload orchestration in push.go) against its
natural-language specification.

The Go code is shallowly embedded: every external call (management API,
blob storage API, local file system, VHD validator, upload library) is
modelled by an oracle `World` that fixes the result of each call, and every
embedded function returns an `Outcome` together with the ordered trace of
calls it made.  `log.Fatalf` is modelled by `Outcome.fatal` (print + exit 1),
`os.Exit(n)` by `Outcome.exit n`, and a Go runtime panic by
`Outcome.panicked`.  Machine integers (int64 sizes and offsets) are modelled
by `Int`; the sizes involved never overflow 64 bits.
-/

/-- Result of running an embedded function: normal return, `log.Fatalf`
(prints the message and exits with status 1), `os.Exit code`, or a Go
runtime panic. -/
inductive Outcome where
  | ok
  | fatal (msg : String)
  | exit (code : Nat)
  | panicked (msg : String)
  deriving DecidableEq, Repr

/-- Models `vhdcore/common.IndexRange`: a closed interval of byte indices
with `Length() = End - Start + 1`. -/
structure IndexRange where
  Start : Int
  End : Int
  deriving DecidableEq, Repr

/-- Models `vhdcore/common.TotalRangeLength`: the sum of the lengths of the
ranges (`r.Length() = r.End - r.Start + 1`). -/
def TotalRangeLength (ranges : List IndexRange) : Int :=
  ranges.foldl (fun acc r => acc + (r.End - r.Start + 1)) 0

/-- Models `vhdcore/diskstream.DiskStream`; `size` is what `GetSize()`
returns (the full logical size of the VHD). The deferred `Close()` performs
no external call that any claim mentions and is not traced. -/
structure DiskStream where
  size : Int
  deriving DecidableEq, Repr

/-- Models the `simpleStorage.BlobStorageClient` obtained from
`simpleStorage.NewBasicClient(accountName, key).GetBlobService()` (a pure
constructor; no network traffic). -/
structure BlobStorageClient where
  accountName : String
  key : String
  deriving DecidableEq, Repr

/-- Models `uploadMetaData.MetaData` as read from the local VHD:
`toMapMap` and `toMapErr` are the two results of `ToMap()`, and `md5Hash`
is `FileMetaData.MD5Hash` (a byte slice, `none` when no digest was
computed). -/
structure MetaData where
  toMapMap : List (String × String)
  toMapErr : Option String
  md5Hash : Option (List Nat)
  deriving DecidableEq, Repr

/-- Models `upload.DiskUploadContext` with the field names of the Go
struct. -/
structure DiskUploadContext where
  VhdStream : DiskStream
  UploadableRanges : List IndexRange
  AlreadyProcessedBytes : Int
  BlobServiceClient : BlobStorageClient
  ContainerName : String
  BlobName : String
  Parallelism : Nat
  Resume : Bool
  MD5Hash : Option (List Nat)
  deriving DecidableEq, Repr

/-- Oracle fixing the result of every external call the program can make.
Each call site is executed at most once per run, so one result per call
suffices.  `listKeysResult` models `accountsClient.ListKeys`: an error, or a
`Keys` pointer that is `nil` (`none`) or a slice of keys whose `Value`
pointers may each be `nil`. -/
structure World where
  numCPU : Nat
  listKeysResult : Except String (Option (List (Option String)))
  absResult : Except String String
  validateVhdResult : Option String
  validateVhdSizeResult : Option String
  diskStreamResult : Except String DiskStream
  newBasicClientResult : Option String
  createContainerResult : Option String
  metaDataResult : Except String MetaData
  putPageBlobResult : Option String
  setBlobMetadataResult : Option String
  locateRangesResult : Except String (List IndexRange)
  detectEmptyResult : Except String (List IndexRange)
  uploadResult : Option String
  setBlobPropertiesResult : Option String
  oauthConfigResult : Option String
  spTokenResult : Option String
  deriving Repr

/-- One traced external call.  `print` is console output (`fmt.Printf`). -/
inductive Event where
  | listKeys (resourceGroupName accountName : String)
  | filepathAbs (path : String)
  | validateVhd (path : String)
  | validateVhdSize (path : String)
  | createDiskStream (path : String)
  | newBasicClient (accountName key : String)
  | createContainerIfNotExists (container : String)
  | getVHDMetaData (path : String)
  | putPageBlob (container blob : String) (size : Int)
  | setBlobMetadata (container blob : String) (m : List (String × String))
  | locateUploadableRanges (rangesToSkip : List IndexRange) (pageSize : Int)
  | detectEmptyRanges (candidates : List IndexRange)
  | uploadCall (cxt : DiskUploadContext)
  | setBlobProperties (container blob contentMD5 : String)
  | newOAuthConfig (tenantID : String)
  | newServicePrincipalToken (clientID : String)
  | print (s : String)
  deriving DecidableEq, Repr

def defaultLocation : String := "westeurope"

def defaultAccountName : String := "linuxkit"

def defaultStorageContainerName : String := "linuxkitcontainer"

def defaultStorageBlobName : String := "linuxkitimage.vhd"

/-- Models Go's `encoding/base64` `StdEncoding.EncodeToString` on a byte
slice (bytes are `Nat`s below 256), with `=` padding. -/
def base64Table : List Char :=
  "ABCDEFGHIJKLMNOPQRSTUVWXYZabcdefghijklmnopqrstuvwxyz0123456789+/".toList

def base64Char (n : Nat) : Char := base64Table.getD n 'A'

def base64StdEncode : List Nat → String
  | [] => ""
  | [b0] =>
      String.mk [base64Char (b0 / 4), base64Char (b0 % 4 * 16), '=', '=']
  | [b0, b1] =>
      String.mk [base64Char (b0 / 4), base64Char (b0 % 4 * 16 + b1 / 16),
        base64Char (b1 % 16 * 4), '=']
  | b0 :: b1 :: b2 :: rest =>
      String.mk [base64Char (b0 / 4), base64Char (b0 % 4 * 16 + b1 / 16),
        base64Char (b1 % 16 * 4 + b2 / 64), base64Char (b2 % 64)] ++
        base64StdEncode rest

/-- push.go `getEnvVarOrExit`: reads the variable (Go's `os.Getenv` returns
`""` both for an unset and for an empty variable) and calls `log.Fatalf`
when it is empty.  The function makes no external call, so its trace is
always empty. -/
def getEnvVarOrExit (env : String → String) (varName : String) :
    Except String String × List Event :=
  let value := env varName
  if value = "" then
    (.error ("Missing environment variable " ++ varName ++ "\n"), [])
  else
    (.ok value, [])

/-- push.go `ensureVHDSanity`: `validator.ValidateVhd` then
`validator.ValidateVhdSize`, each fatal on error. Returns the fatal message
(if any) and the trace of validator calls made. -/
def ensureVHDSanity (w : World) (localVHDPath : String) :
    Option String × List Event :=
  match w.validateVhdResult with
  | some e => (some ("Unable to validate VHD: " ++ e),
      [Event.validateVhd localVHDPath])
  | none =>
    match w.validateVhdSizeResult with
    | some e => (some ("Unable to validate VHD size: " ++ e),
        [Event.validateVhd localVHDPath, Event.validateVhdSize localVHDPath])
    | none => (none,
        [Event.validateVhd localVHDPath, Event.validateVhdSize localVHDPath])

/-- push.go `getLocalVHDMetaData`: `uploadMetaData.NewMetaDataFromLocalVHD`,
fatal on error. -/
def getLocalVHDMetaData (w : World) (localVHDPath : String) :
    Except String MetaData × List Event :=
  match w.metaDataResult with
  | .error e => (.error ("Unable to get VHD metadata: " ++ e),
      [Event.getVHDMetaData localVHDPath])
  | .ok md => (.ok md, [Event.getVHDMetaData localVHDPath])

/-- push.go `setBlobMD5Hash`: when `vhdMetaData.FileMetaData.MD5Hash` is
non-nil, sets the blob's `ContentMD5` header to its standard base64
encoding via `SetBlobProperties` (fatal on error); otherwise does
nothing. -/
def setBlobMD5Hash (w : World) (client : BlobStorageClient)
    (containerName blobName : String) (vhdMetaData : MetaData) :
    Outcome × List Event :=
  match vhdMetaData.md5Hash with
  | none => (.ok, [])
  | some hash =>
    match w.setBlobPropertiesResult with
    | some e => (.fatal ("Unable to set blob properties: " ++ e),
        [Event.setBlobProperties containerName blobName
          (base64StdEncode hash)])
    | none => (.ok,
        [Event.setBlobProperties containerName blobName
          (base64StdEncode hash)])

/-- push.go `initializeAzureClients`: `adal.NewOAuthConfig` then
`adal.NewServicePrincipalToken`, each fatal on error; the two client
constructions that follow are pure. -/
def initializeAzureClients (w : World)
    (subscriptionID tenantID clientID clientSecret : String) :
    Outcome × List Event :=
  match w.oauthConfigResult with
  | some e => (.fatal ("Cannot get oAuth configuration: " ++ e),
      [Event.newOAuthConfig tenantID])
  | none =>
    match w.spTokenResult with
    | some e => (.fatal ("Cannot get service principal token: " ++ e),
        [Event.newOAuthConfig tenantID,
         Event.newServicePrincipalToken clientID])
    | none => (.ok,
        [Event.newOAuthConfig tenantID,
         Event.newServicePrincipalToken clientID])

/-- push.go `uploadVMImage(resourceGroupName, accountName, imagePath)`,
translated statement by statement.  Note the source order: the
`accountsClient.ListKeys` management call comes first, then
`filepath.Abs`, then `ensureVHDSanity`, then the disk stream, the storage
client, `CreateContainerIfNotExists`, the local metadata read,
`PutPageBlob` (sized by `diskStream.GetSize()`), `SetBlobMetadata` (the
`ToMap()` error is discarded by `m, _ := ...`), the two range-planning
calls (with a nil `rangesToSkip`), `upload.Upload`, and finally
`setBlobMD5Hash`.  `keys := *(accountKeys.Keys)` panics at once when the
pointer is nil; `*keys[0].Value` panics at the `NewBasicClient` call when
the slice is empty or the `Value` pointer is nil. -/
def uploadVMImage (w : World)
    (resourceGroupName accountName imagePath : String) :
    Outcome × List Event :=
  let PageBlobPageSize : Int := 2 * 1024 * 1024
  let parallelism := 8 * w.numCPU
  match w.listKeysResult with
  | .error e => (.fatal ("Unable to retrieve storage account key: " ++ e),
      [Event.listKeys resourceGroupName accountName])
  | .ok none =>
      (.panicked "runtime error: invalid memory address or nil pointer dereference",
       [Event.listKeys resourceGroupName accountName])
  | .ok (some keys) =>
    match w.absResult with
    | .error e => (.fatal ("Unable to get absolute path: " ++ e),
        [Event.listKeys resourceGroupName accountName,
         Event.filepathAbs imagePath])
    | .ok absolutePath =>
      match ensureVHDSanity w absolutePath with
      | (some msg, tv) => (.fatal msg,
          Event.listKeys resourceGroupName accountName ::
            Event.filepathAbs imagePath :: tv)
      | (none, tv) =>
        let t0 := Event.listKeys resourceGroupName accountName ::
          Event.filepathAbs imagePath :: tv
        match w.diskStreamResult with
        | .error e => (.fatal ("Unable to create disk stream for VHD: " ++ e),
            t0 ++ [Event.createDiskStream absolutePath])
        | .ok diskStream =>
          let t1 := t0 ++ [Event.createDiskStream absolutePath]
          match keys with
          | [] => (.panicked "runtime error: index out of range", t1)
          | k0 :: _ =>
            match k0 with
            | none =>
                (.panicked "runtime error: invalid memory address or nil pointer dereference",
                 t1)
            | some key0 =>
              match w.newBasicClientResult with
              | some e => (.fatal ("Unable to create simple storage client: " ++ e),
                  t1 ++ [Event.newBasicClient accountName key0])
              | none =>
                let blobServiceClient : BlobStorageClient :=
                  { accountName := accountName, key := key0 }
                let t2 := t1 ++ [Event.newBasicClient accountName key0]
                match w.createContainerResult with
                | some e => (.fatal ("Unable to create or retrieve container: " ++ e),
                    t2 ++ [Event.createContainerIfNotExists defaultStorageContainerName])
                | none =>
                  let t3 := t2 ++
                    [Event.createContainerIfNotExists defaultStorageContainerName]
                  match getLocalVHDMetaData w absolutePath with
                  | (.error msg, tm) => (.fatal msg, t3 ++ tm)
                  | (.ok localMetaData, tm) =>
                    let t4 := t3 ++ tm
                    match w.putPageBlobResult with
                    | some e => (.fatal ("Unable to create VHD blob: " ++ e),
                        t4 ++ [Event.putPageBlob defaultStorageContainerName
                          defaultStorageBlobName diskStream.size])
                    | none =>
                      let t5 := t4 ++ [Event.putPageBlob defaultStorageContainerName
                        defaultStorageBlobName diskStream.size]
                      let m := localMetaData.toMapMap
                      match w.setBlobMetadataResult with
                      | some e => (.fatal ("Unable to set blob metatada: " ++ e),
                          t5 ++ [Event.setBlobMetadata defaultStorageContainerName
                            defaultStorageBlobName m])
                      | none =>
                        let t6 := t5 ++ [Event.setBlobMetadata
                          defaultStorageContainerName defaultStorageBlobName m]
                        let rangesToSkip : List IndexRange := []
                        match w.locateRangesResult with
                        | .error e => (.fatal ("Unable to locate uploadable ranges: " ++ e),
                            t6 ++ [Event.locateUploadableRanges rangesToSkip
                              PageBlobPageSize])
                        | .ok located =>
                          let t7 := t6 ++ [Event.locateUploadableRanges rangesToSkip
                            PageBlobPageSize]
                          match w.detectEmptyResult with
                          | .error e => (.fatal ("Unable to detect empty blob ranges: " ++ e),
                              t7 ++ [Event.detectEmptyRanges located])
                          | .ok uploadableRanges =>
                            let t8 := t7 ++ [Event.detectEmptyRanges located]
                            let cxt : DiskUploadContext :=
                              { VhdStream := diskStream
                                UploadableRanges := uploadableRanges
                                AlreadyProcessedBytes := TotalRangeLength rangesToSkip
                                BlobServiceClient := blobServiceClient
                                ContainerName := defaultStorageContainerName
                                BlobName := defaultStorageBlobName
                                Parallelism := parallelism
                                Resume := false
                                MD5Hash := localMetaData.md5Hash }
                            match w.uploadResult with
                            | some e => (.fatal ("Unable to upload VHD: " ++ e),
                                t8 ++ [Event.uploadCall cxt])
                            | none =>
                              let t9 := t8 ++ [Event.uploadCall cxt]
                              match setBlobMD5Hash w blobServiceClient
                                defaultStorageContainerName defaultStorageBlobName
                                localMetaData with
                              | (o, tf) => (o, t9 ++ tf)

/-- The three string flags registered by the `push` handler
(part_001). `location` and `accountName` carry the source defaults. -/
structure PushFlags where
  resourceGroupName : String
  location : String
  accountName : String
  deriving DecidableEq, Repr

def initialPushFlags : PushFlags :=
  { resourceGroupName := "", location := defaultLocation,
    accountName := defaultAccountName }

def setPushFlag (f : PushFlags) (name value : String) :
    Except String PushFlags :=
  if name = "resourceGroupName" then .ok { f with resourceGroupName := value }
  else if name = "location" then .ok { f with location := value }
  else if name = "accountName" then .ok { f with accountName := value }
  else .error ("flag provided but not defined: -" ++ name)

/-- Models Go's `flag.FlagSet.Parse` for a set of three string flags:
parsing stops at the first non-flag argument (or after a bare `--`);
`-name=value`, `-name value`, and `--name` forms are accepted; an unknown
flag or a flag without a value is an error. Returns the parsed flags and
the remaining positional arguments. -/
def parsePushFlags (f : PushFlags) :
    List String → Except String (PushFlags × List String)
  | [] => .ok (f, [])
  | s :: rest =>
    if s.length < 2 ∨ s.front ≠ '-' then .ok (f, s :: rest)
    else if s = "--" then .ok (f, rest)
    else
      let s1 := s.drop 1
      let name0 := if s1.front = '-' then s1.drop 1 else s1
      if name0 = "" ∨ name0.front = '-' ∨ name0.front = '=' then
        .error ("bad flag syntax: " ++ s)
      else
        let parts := name0.splitOn "="
        match parts with
        | [] => .error ("bad flag syntax: " ++ s)
        | [name] =>
          match rest with
          | [] => .error ("flag needs an argument: -" ++ name)
          | v :: rest2 =>
            match setPushFlag f name v with
            | .error e => .error e
            | .ok f2 => parsePushFlags f2 rest2
        | name :: vparts =>
          match setPushFlag f name (String.intercalate "=" vparts) with
          | .error e => .error e
          | .ok f2 => parsePushFlags f2 rest

def pushUsageText : String :=
  "USAGE: push [options] imagePath\n\n" ++
  "'imagePath' specified the path (absolute or relative) of a\n" ++
  "VHD image to be pushed in an account storage\n\n"

/-- The `push` subcommand handler (part_001): registers the three string
flags, parses the arguments (the flag set uses `flag.ExitOnError`, so a
parse error prints the usage and exits with status 2), and then only
prints the received flag values and returns.  It never calls
`uploadVMImage`, `initializeAzureClients`, `getEnvVarOrExit`, or any other
routine of the upload orchestration. -/
def push (args : List String) : Outcome × List Event :=
  match parsePushFlags initialPushFlags args with
  | .error e =>
      (.exit 2, [Event.print e, Event.print pushUsageText])
  | .ok (f, _) =>
      (.ok, [Event.print ("Invoked with args: " ++ f.resourceGroupName ++
        ", " ++ f.location ++ ", " ++ f.accountName)])

/-- main.go `main`, after the top-level `flag.Parse()`: dispatches on the
first positional argument.  The `run` handler is not part of the visible
source, so it is passed in as a parameter. -/
def mainDispatch (runHandler : List String → Outcome × List Event)
    (args : List String) : Outcome × List Event :=
  match args with
  | [] => (.exit 1, [Event.print "Please specify a command!\n\n"])
  | cmd :: rest =>
    if cmd = "push" then push rest
    else if cmd = "run" then runHandler rest
    else (.exit 1, [Event.print (cmd ++ " is not a valid command \n\n")])

/-- The events that create a remote container or blob. -/
def isCreationEvent : Event → Bool
  | .createContainerIfNotExists _ => true
  | .putPageBlob _ _ _ => true
  | _ => false

/-- The events that go over the network (management API, identity
endpoint, or blob storage data API).  `filepath.Abs`, the VHD validator,
the disk stream, the metadata read, the range planner and the pure client
constructors are local. -/
def isNetworkEvent : Event → Bool
  | .listKeys _ _ => true
  | .createContainerIfNotExists _ => true
  | .putPageBlob _ _ _ => true
  | .setBlobMetadata _ _ _ => true
  | .uploadCall _ => true
  | .setBlobProperties _ _ _ => true
  | .newOAuthConfig _ => true
  | .newServicePrincipalToken _ => true
  | _ => false

def isValidationEvent : Event → Bool
  | .validateVhd _ => true
  | .validateVhdSize _ => true
  | _ => false

def isValidateVhdEvent : Event → Bool
  | .validateVhd _ => true
  | _ => false

def isValidateVhdSizeEvent : Event → Bool
  | .validateVhdSize _ => true
  | _ => false

def isListKeysEvent : Event → Bool
  | .listKeys _ _ => true
  | _ => false

def isPutPageBlobEvent : Event → Bool
  | .putPageBlob _ _ _ => true
  | _ => false

def isSetBlobMetadataEvent : Event → Bool
  | .setBlobMetadata _ _ _ => true
  | _ => false

def isUploadCallEvent : Event → Bool
  | .uploadCall _ => true
  | _ => false

def isSetBlobPropertiesEvent : Event → Bool
  | .setBlobProperties _ _ _ => true
  | _ => false

def isPrintEvent : Event → Bool
  | .print _ => true
  | _ => false

/-- `eventsOrdered first later seen tr` holds when every event of the trace
`tr` satisfying `later` is strictly preceded by some event satisfying
`first` (events already `seen` count as preceding). -/
def eventsOrdered (first later : Event → Bool) (seen : Bool) :
    List Event → Bool
  | [] => true
  | e :: rest =>
      (seen || !(later e)) && eventsOrdered first later (seen || first e) rest

/-- At most one event of the trace satisfies `p`. -/
def atMostOne (p : Event → Bool) : List Event → Bool
  | [] => true
  | e :: rest => if p e then rest.all (fun x => !(p x)) else atMostOne p rest

/-- Every `putPageBlob` event carries exactly the disk stream's full
logical size. -/
def putPageBlobSizeOK (w : World) : Event → Bool
  | .putPageBlob _ _ sz =>
      match w.diskStreamResult with
      | .ok ds => sz == ds.size
      | .error _ => false
  | _ => true

/-- Every `uploadCall` event hands the Upload Engine a context whose
parallelism is exactly `8 * numCPU`. -/
def uploadCallParallelismOK (w : World) : Event → Bool
  | .uploadCall c => c.Parallelism == 8 * w.numCPU
  | _ => true

/-- Every `uploadCall` event hands the Upload Engine a fresh-upload
context: `Resume = false` and
`AlreadyProcessedBytes = TotalRangeLength []`. -/
def uploadCallFreshOK : Event → Bool
  | .uploadCall c =>
      (c.Resume == false) && (c.AlreadyProcessedBytes == TotalRangeLength [])
  | _ => true

/-- Every `locateUploadableRanges` event passes a nil (empty)
previously-uploaded-range set. -/
def locateSkipNilOK : Event → Bool
  | .locateUploadableRanges skip _ => skip == ([] : List IndexRange)
  | _ => true

/-- Every `setBlobMetadata` event writes exactly the map component of the
local metadata's `ToMap()` result. -/
def setBlobMetadataMapOK (w : World) : Event → Bool
  | .setBlobMetadata _ _ m =>
      match w.metaDataResult with
      | .ok md => m == md.toMapMap
      | .error _ => false
  | _ => true

/-- Every `setBlobProperties` event carries the base64 encoding of the
locally computed MD5 digest. -/
def setBlobPropertiesMD5OK (w : World) : Event → Bool
  | .setBlobProperties _ _ hdr =>
      match w.metaDataResult with
      | .ok md =>
          match md.md5Hash with
          | some h => hdr == base64StdEncode h
          | none => false
      | .error _ => false
  | _ => true

/-- All the unconditional trace invariants of `uploadVMImage` needed by
the claims, bundled so that one case analysis settles them all. -/
def masterCheck (w : World) (tr : List Event) : Bool :=
  eventsOrdered isListKeysEvent isValidationEvent false tr &&
  eventsOrdered isValidateVhdEvent isCreationEvent false tr &&
  eventsOrdered isValidateVhdSizeEvent isCreationEvent false tr &&
  eventsOrdered isPutPageBlobEvent isUploadCallEvent false tr &&
  eventsOrdered isSetBlobMetadataEvent isUploadCallEvent false tr &&
  eventsOrdered isUploadCallEvent isSetBlobPropertiesEvent false tr &&
  atMostOne isPutPageBlobEvent tr &&
  tr.all (putPageBlobSizeOK w) &&
  tr.all (uploadCallParallelismOK w) &&
  tr.all uploadCallFreshOK &&
  tr.all locateSkipNilOK &&
  tr.all (setBlobMetadataMapOK w) &&
  tr.all (setBlobPropertiesMD5OK w)

/-- A world in which every external call succeeds: four CPUs, one storage
key, a 10 MiB image whose first 8 MiB are uploadable. -/
def wDemo : World where
  numCPU := 4
  listKeysResult := .ok (some [some "key0"])
  absResult := .ok "/images/linuxkit.vhd"
  validateVhdResult := none
  validateVhdSizeResult := none
  diskStreamResult := .ok ⟨10485760⟩
  newBasicClientResult := none
  createContainerResult := none
  metaDataResult := .ok ⟨[("diskmetadata", "osdisk")], none, some [77, 97, 110]⟩
  putPageBlobResult := none
  setBlobMetadataResult := none
  locateRangesResult := .ok [⟨0, 8388607⟩]
  detectEmptyResult := .ok [⟨0, 8388607⟩]
  uploadResult := none
  setBlobPropertiesResult := none
  oauthConfigResult := none
  spTokenResult := none

/-- `wDemo`, except that structural VHD validation fails. -/
def wBadVhd : World :=
  { wDemo with validateVhdResult := some "the file is not a vhd" }

/-- `wDemo`, except that `ListKeys` succeeds with a nil `Keys` pointer. -/
def wNilKeys : World :=
  { wDemo with listKeysResult := .ok none }

/-- `wDemo`, except that `ListKeys` succeeds with an empty key slice. -/
def wEmptyKeys : World :=
  { wDemo with listKeysResult := .ok (some []) }

/-- `wDemo`, except that `ListKeys` itself fails. -/
def wKeysErr : World :=
  { wDemo with listKeysResult := .error "authorization failed" }

/-- `wDemo`, except that `ToMap()` also reports an error (alongside the
same map). -/
def wToMapErr : World :=
  { wDemo with metaDataResult := .ok ⟨[("diskmetadata", "osdisk")], some "serialization error", some [77, 97, 110]⟩ }

/-- `wDemo`, except that no local MD5 digest was computed. -/
def wNoMD5 : World :=
  { wDemo with metaDataResult := .ok ⟨[("diskmetadata", "osdisk")], none, none⟩ }

attribute [simp] eventsOrdered atMostOne TotalRangeLength isCreationEvent
  isNetworkEvent isValidationEvent isValidateVhdEvent isValidateVhdSizeEvent
  isListKeysEvent isPutPageBlobEvent isSetBlobMetadataEvent isUploadCallEvent
  isSetBlobPropertiesEvent isPrintEvent putPageBlobSizeOK
  uploadCallParallelismOK uploadCallFreshOK locateSkipNilOK
  setBlobMetadataMapOK setBlobPropertiesMD5OK

/-! ## Helper lemmas -/

theorem eventsOrdered_of_seen (first later : Event → Bool) (tr : List Event) :
    eventsOrdered first later true tr = true := by
  induction tr with
  | nil => rfl
  | cons e rest ih => simp [eventsOrdered, ih]

/-- All unconditional trace invariants of `uploadVMImage`, settled by one
case analysis over the oracle. -/
theorem uploadVMImage_masterCheck (w : World) (rg acct img : String) :
    masterCheck w (uploadVMImage w rg acct img).2 = true := by
  rcases hlk : w.listKeysResult with e | kp
  · simp [uploadVMImage, ensureVHDSanity, getLocalVHDMetaData, setBlobMD5Hash, masterCheck, *]
  rcases kp with _ | keys
  · simp [uploadVMImage, ensureVHDSanity, getLocalVHDMetaData, setBlobMD5Hash, masterCheck, *]
  rcases hab : w.absResult with e | ap
  · simp [uploadVMImage, ensureVHDSanity, getLocalVHDMetaData, setBlobMD5Hash, masterCheck, *]
  rcases hvv : w.validateVhdResult with _ | e
  rotate_left
  · simp [uploadVMImage, ensureVHDSanity, getLocalVHDMetaData, setBlobMD5Hash, masterCheck, *]
  rcases hvs : w.validateVhdSizeResult with _ | e
  rotate_left
  · simp [uploadVMImage, ensureVHDSanity, getLocalVHDMetaData, setBlobMD5Hash, masterCheck, *]
  rcases hds : w.diskStreamResult with e | ds
  · simp [uploadVMImage, ensureVHDSanity, getLocalVHDMetaData, setBlobMD5Hash, masterCheck, *]
  rcases keys with _ | ⟨k0, krest⟩
  · simp [uploadVMImage, ensureVHDSanity, getLocalVHDMetaData, setBlobMD5Hash, masterCheck, *]
  rcases k0 with _ | key0
  · simp [uploadVMImage, ensureVHDSanity, getLocalVHDMetaData, setBlobMD5Hash, masterCheck, *]
  rcases hnb : w.newBasicClientResult with _ | e
  rotate_left
  · simp [uploadVMImage, ensureVHDSanity, getLocalVHDMetaData, setBlobMD5Hash, masterCheck, *]
  rcases hcc : w.createContainerResult with _ | e
  rotate_left
  · simp [uploadVMImage, ensureVHDSanity, getLocalVHDMetaData, setBlobMD5Hash, masterCheck, *]
  rcases hmd : w.metaDataResult with e | md
  · simp [uploadVMImage, ensureVHDSanity, getLocalVHDMetaData, setBlobMD5Hash, masterCheck, *]
  rcases hppb : w.putPageBlobResult with _ | e
  rotate_left
  · simp [uploadVMImage, ensureVHDSanity, getLocalVHDMetaData, setBlobMD5Hash, masterCheck, *]
  rcases hsbm : w.setBlobMetadataResult with _ | e
  rotate_left
  · simp [uploadVMImage, ensureVHDSanity, getLocalVHDMetaData, setBlobMD5Hash, masterCheck, *]
  rcases hlr : w.locateRangesResult with e | located
  · simp [uploadVMImage, ensureVHDSanity, getLocalVHDMetaData, setBlobMD5Hash, masterCheck, *]
  rcases hde : w.detectEmptyResult with e | ranges
  · simp [uploadVMImage, ensureVHDSanity, getLocalVHDMetaData, setBlobMD5Hash, masterCheck, *]
  rcases hup : w.uploadResult with _ | e
  rotate_left
  · simp [uploadVMImage, ensureVHDSanity, getLocalVHDMetaData, setBlobMD5Hash, masterCheck, *]
  rcases hmh : md.md5Hash with _ | hash
  · simp [uploadVMImage, ensureVHDSanity, getLocalVHDMetaData, setBlobMD5Hash, masterCheck, *]
  rcases hsp : w.setBlobPropertiesResult with _ | e
  · simp [uploadVMImage, ensureVHDSanity, getLocalVHDMetaData, setBlobMD5Hash, masterCheck, *]
  · simp [uploadVMImage, ensureVHDSanity, getLocalVHDMetaData, setBlobMD5Hash, masterCheck, *]

/-- When either validator rejects the image, the run never creates a
container or a blob and does not return normally. -/
theorem uploadVMImage_validationFailureAborts (w : World)
    (rg acct img : String)
    (h : w.validateVhdResult ≠ none ∨ w.validateVhdSizeResult ≠ none) :
    ((uploadVMImage w rg acct img).2.all fun e => !(isCreationEvent e)) = true ∧
      (uploadVMImage w rg acct img).1 ≠ Outcome.ok := by
  rcases hlk : w.listKeysResult with e | kp
  · simp [uploadVMImage, *]
  rcases kp with _ | keys
  · simp [uploadVMImage, *]
  rcases hab : w.absResult with e | ap
  · simp [uploadVMImage, *]
  rcases hvv : w.validateVhdResult with _ | e
  rotate_left
  · simp [uploadVMImage, ensureVHDSanity, *]
  rcases hvs : w.validateVhdSizeResult with _ | e
  rotate_left
  · simp [uploadVMImage, ensureVHDSanity, *]
  simp [hvv, hvs] at h

/-! ## Claims -/

/-- Claim C1: for every invocation of the push subcommand, the push handler
only parses and prints the provided arguments (resource group name,
location, account name) and returns; its trace consists of print events
only, so it never calls `uploadVMImage` nor any credential-loading,
authentication, validation, range-planning, upload, or finalization
routine, and the upload orchestration is unreachable from main. -/
theorem push_onlyPrints (runHandler : List String → Outcome × List Event)
    (rest : List String) :
    mainDispatch runHandler ("push" :: rest) = push rest ∧
      ((push rest).2.all isPrintEvent) = true := by
  constructor
  · simp [mainDispatch]
  · cases h : parsePushFlags initialPushFlags rest with
    | error e => simp [push, h]
    | ok fr =>
      rcases fr with ⟨f, rem⟩
      simp [push, h]

/-- Claim C2 (counterexample): the claim as stated is false.  The
`ListKeys` management call — a network call against the storage account —
is always the first event of `uploadVMImage`, strictly before both
validator calls, so validation does not occur before every network
resource is touched; a run whose image fails validation has already made
that network call before aborting. -/
theorem uploadVMImage_networkPrecedesValidation :
    eventsOrdered isValidationEvent isNetworkEvent false
        (uploadVMImage wDemo "lk-rg" "linuxkit" "image.vhd").2 = false ∧
      (uploadVMImage wBadVhd "lk-rg" "linuxkit" "image.vhd").2.any
        isNetworkEvent = true ∧
      (uploadVMImage wBadVhd "lk-rg" "linuxkit" "image.vhd").1 =
        Outcome.fatal "Unable to validate VHD: the file is not a vhd" := by
  refine ⟨by decide, by decide, by decide⟩

/-- Claim C2 (amended): in `uploadVMImage`, the storage-account key
retrieval (`ListKeys`, a network call) precedes local validation, but
validation (structural check then size-bound check, each fatal on failure)
occurs strictly before any remote container or page blob is created; for
an image that fails validation the run aborts and no container or blob is
ever created. -/
theorem uploadVMImage_validationBeforeCreation (w : World)
    (rg acct img : String) :
    eventsOrdered isListKeysEvent isValidationEvent false
        (uploadVMImage w rg acct img).2 = true ∧
      eventsOrdered isValidateVhdEvent isCreationEvent false
        (uploadVMImage w rg acct img).2 = true ∧
      eventsOrdered isValidateVhdSizeEvent isCreationEvent false
        (uploadVMImage w rg acct img).2 = true ∧
      ((w.validateVhdResult ≠ none ∨ w.validateVhdSizeResult ≠ none) →
        ((uploadVMImage w rg acct img).2.all fun e => !(isCreationEvent e)) = true ∧
          (uploadVMImage w rg acct img).1 ≠ Outcome.ok) := by
  have h := uploadVMImage_masterCheck w rg acct img
  simp only [masterCheck, Bool.and_eq_true] at h
  obtain ⟨⟨⟨⟨⟨⟨⟨⟨⟨⟨⟨⟨c1, c2⟩, c3⟩, c4⟩, c5⟩, c6⟩, c7⟩, c8⟩, c9⟩, c10⟩,
    c11⟩, c12⟩, c13⟩ := h
  exact ⟨c1, c2, c3,
    fun hf => uploadVMImage_validationFailureAborts w rg acct img hf⟩

/-- Claim C2 (witness): the amended claim at a concrete failing image. -/
theorem uploadVMImage_validationBeforeCreation_witness :
    eventsOrdered isValidateVhdEvent isCreationEvent false
        (uploadVMImage wBadVhd "lk-rg" "linuxkit" "image.vhd").2 = true ∧
      ((uploadVMImage wBadVhd "lk-rg" "linuxkit" "image.vhd").2.all
        fun e => !(isCreationEvent e)) = true ∧
      (uploadVMImage wBadVhd "lk-rg" "linuxkit" "image.vhd").1 ≠
        Outcome.ok := by
  have h := uploadVMImage_validationBeforeCreation wBadVhd "lk-rg"
    "linuxkit" "image.vhd"
  have h2 := h.2.2.2 (Or.inl (by decide))
  exact ⟨h.2.1, h2.1, h2.2⟩

/-- Claim C3: `getEnvVarOrExit` returns the variable's value when it is
set and non-empty, and otherwise (absent or empty — Go's `os.Getenv`
returns `""` in both cases) terminates immediately via `log.Fatalf` with a
descriptive "Missing environment variable" message and non-zero status;
its trace is free of network events, and it contains no retry. -/
theorem getEnvVarOrExit_spec (env : String → String) (varName : String) :
    (env varName ≠ "" →
      getEnvVarOrExit env varName = (.ok (env varName), [])) ∧
      (env varName = "" →
        getEnvVarOrExit env varName =
          (.error ("Missing environment variable " ++ varName ++ "\n"), [])) ∧
      ((getEnvVarOrExit env varName).2.all fun e => !(isNetworkEvent e)) = true := by
  refine ⟨fun h => by simp [getEnvVarOrExit, h], fun h => by
    simp [getEnvVarOrExit, h], ?_⟩
  rcases eq_or_ne (env varName) "" with h | h <;> simp [getEnvVarOrExit, h]

/-- Claim C3 (witness): a set and an unset variable. -/
theorem getEnvVarOrExit_witness :
    getEnvVarOrExit
        (fun v => if v = "AZURE_SUBSCRIPTION_ID" then "subid-123" else "")
        "AZURE_SUBSCRIPTION_ID" = (.ok "subid-123", []) ∧
      getEnvVarOrExit (fun _ => "") "AZURE_TENANT_ID" =
        (.error ("Missing environment variable " ++ "AZURE_TENANT_ID" ++ "\n"),
          []) := by
  constructor
  · exact (getEnvVarOrExit_spec
      (fun v => if v = "AZURE_SUBSCRIPTION_ID" then "subid-123" else "")
      "AZURE_SUBSCRIPTION_ID").1 (by decide)
  · exact (getEnvVarOrExit_spec (fun _ => "") "AZURE_TENANT_ID").2.1 rfl

/-- Claim C4: every page blob `uploadVMImage` creates is allocated with
size exactly `diskStream.GetSize()`, the allocation strictly precedes the
`upload.Upload` call, and at most one `PutPageBlob` call ever happens, so
the blob is never resized afterwards. -/
theorem uploadVMImage_putPageBlobSpec (w : World) (rg acct img : String) :
    ((uploadVMImage w rg acct img).2.all (putPageBlobSizeOK w)) = true ∧
      eventsOrdered isPutPageBlobEvent isUploadCallEvent false
        (uploadVMImage w rg acct img).2 = true ∧
      atMostOne isPutPageBlobEvent (uploadVMImage w rg acct img).2 = true := by
  have h := uploadVMImage_masterCheck w rg acct img
  simp only [masterCheck, Bool.and_eq_true] at h
  obtain ⟨⟨⟨⟨⟨⟨⟨⟨⟨⟨⟨⟨c1, c2⟩, c3⟩, c4⟩, c5⟩, c6⟩, c7⟩, c8⟩, c9⟩, c10⟩,
    c11⟩, c12⟩, c13⟩ := h
  exact ⟨c8, c4, c7⟩

/-- Claim C5: the image-metadata key/value map is written via
`SetBlobMetadata` strictly before any `upload.Upload` call, and every such
write carries exactly the map component of the local metadata's
`ToMap()`. -/
theorem uploadVMImage_metadataBeforeUpload (w : World) (rg acct img : String) :
    eventsOrdered isSetBlobMetadataEvent isUploadCallEvent false
        (uploadVMImage w rg acct img).2 = true ∧
      ((uploadVMImage w rg acct img).2.all (setBlobMetadataMapOK w)) = true := by
  have h := uploadVMImage_masterCheck w rg acct img
  simp only [masterCheck, Bool.and_eq_true] at h
  obtain ⟨⟨⟨⟨⟨⟨⟨⟨⟨⟨⟨⟨c1, c2⟩, c3⟩, c4⟩, c5⟩, c6⟩, c7⟩, c8⟩, c9⟩, c10⟩,
    c11⟩, c12⟩, c13⟩ := h
  exact ⟨c5, c12⟩

/-- Claim C6: `setBlobMD5Hash` sets the blob's `ContentMD5` property to
the base64 encoding of the locally computed MD5 digest if and only if that
digest is non-nil (skipping the blob-property call entirely otherwise), a
failure to set the property is fatal, and inside `uploadVMImage` any
`SetBlobProperties` call happens only after the `upload.Upload` call. -/
theorem setBlobMD5Hash_spec (w : World) (client : BlobStorageClient)
    (containerName blobName : String) (md : MetaData) :
    (md.md5Hash = none →
      setBlobMD5Hash w client containerName blobName md = (.ok, [])) ∧
      (∀ hash, md.md5Hash = some hash →
        (setBlobMD5Hash w client containerName blobName md).2 =
            [Event.setBlobProperties containerName blobName
              (base64StdEncode hash)] ∧
          (w.setBlobPropertiesResult = none →
            (setBlobMD5Hash w client containerName blobName md).1 = .ok) ∧
          (∀ e, w.setBlobPropertiesResult = some e →
            (setBlobMD5Hash w client containerName blobName md).1 =
              .fatal ("Unable to set blob properties: " ++ e))) ∧
      (∀ rg acct img, eventsOrdered isUploadCallEvent isSetBlobPropertiesEvent
        false (uploadVMImage w rg acct img).2 = true) := by
  refine ⟨fun h => by simp [setBlobMD5Hash, h], fun hash h => ?_,
    fun rg acct img => ?_⟩
  · rcases hsp : w.setBlobPropertiesResult with _ | e <;>
      simp [setBlobMD5Hash, h, hsp]
  · have hm := uploadVMImage_masterCheck w rg acct img
    simp only [masterCheck, Bool.and_eq_true] at hm
    obtain ⟨⟨⟨⟨⟨⟨⟨⟨⟨⟨⟨⟨c1, c2⟩, c3⟩, c4⟩, c5⟩, c6⟩, c7⟩, c8⟩, c9⟩, c10⟩,
      c11⟩, c12⟩, c13⟩ := hm
    exact c6

/-- Claim C6 (witness): the skip case and the set case ("Man" encodes to
"TWFu"). -/
theorem setBlobMD5Hash_witness :
    setBlobMD5Hash wNoMD5 ⟨"linuxkit", "key0"⟩ defaultStorageContainerName
        defaultStorageBlobName ⟨[("diskmetadata", "osdisk")], none, none⟩ =
      (.ok, []) ∧
      (setBlobMD5Hash wDemo ⟨"linuxkit", "key0"⟩ defaultStorageContainerName
          defaultStorageBlobName
          ⟨[("diskmetadata", "osdisk")], none, some [77, 97, 110]⟩).2 =
        [Event.setBlobProperties defaultStorageContainerName
          defaultStorageBlobName "TWFu"] := by
  constructor
  · exact (setBlobMD5Hash_spec wNoMD5 ⟨"linuxkit", "key0"⟩
      defaultStorageContainerName defaultStorageBlobName
      ⟨[("diskmetadata", "osdisk")], none, none⟩).1 rfl
  · have h := ((setBlobMD5Hash_spec wDemo ⟨"linuxkit", "key0"⟩
      defaultStorageContainerName defaultStorageBlobName
      ⟨[("diskmetadata", "osdisk")], none, some [77, 97, 110]⟩).2.1
      [77, 97, 110] rfl).1
    rw [h]
    decide

/-- Claim C7: the parallelism placed in every `DiskUploadContext` handed
to the Upload Engine equals exactly `8 * runtime.NumCPU()`, whatever the
oracle and the arguments. -/
theorem uploadVMImage_parallelism (w : World) (rg acct img : String) :
    ((uploadVMImage w rg acct img).2.all (uploadCallParallelismOK w)) = true := by
  have h := uploadVMImage_masterCheck w rg acct img
  simp only [masterCheck, Bool.and_eq_true] at h
  obtain ⟨⟨⟨⟨⟨⟨⟨⟨⟨⟨⟨⟨c1, c2⟩, c3⟩, c4⟩, c5⟩, c6⟩, c7⟩, c8⟩, c9⟩, c10⟩,
    c11⟩, c12⟩, c13⟩ := h
  exact c9

/-- Claim C8: when `ListKeys` returns without error but with a nil `Keys`
pointer, `uploadVMImage` panics at the dereference; when the key slice is
empty (and the run reaches the storage-client construction), it panics at
`keys[0]`; a descriptive fatal message is produced exactly when `ListKeys`
itself returns an error. -/
theorem uploadVMImage_listKeysPanics (w : World) (rg acct img : String) :
    (∀ e, w.listKeysResult = .error e →
      (uploadVMImage w rg acct img).1 =
        .fatal ("Unable to retrieve storage account key: " ++ e)) ∧
      (w.listKeysResult = .ok none →
        (uploadVMImage w rg acct img).1 =
          .panicked "runtime error: invalid memory address or nil pointer dereference") ∧
      (∀ ap ds, w.listKeysResult = .ok (some []) → w.absResult = .ok ap →
        w.validateVhdResult = none → w.validateVhdSizeResult = none →
        w.diskStreamResult = .ok ds →
        (uploadVMImage w rg acct img).1 =
          .panicked "runtime error: index out of range") := by
  refine ⟨fun e h => by simp [uploadVMImage, h],
    fun h => by simp [uploadVMImage, h],
    fun ap ds h1 h2 h3 h4 h5 => by
      simp [uploadVMImage, ensureVHDSanity, h1, h2, h3, h4, h5]⟩

/-- Claim C8 (witness): the three `ListKeys` outcomes at concrete
worlds. -/
theorem uploadVMImage_listKeysPanics_witness :
    (uploadVMImage wKeysErr "lk-rg" "linuxkit" "image.vhd").1 =
      .fatal ("Unable to retrieve storage account key: " ++
        "authorization failed") ∧
      (uploadVMImage wNilKeys "lk-rg" "linuxkit" "image.vhd").1 =
        .panicked "runtime error: invalid memory address or nil pointer dereference" ∧
      (uploadVMImage wEmptyKeys "lk-rg" "linuxkit" "image.vhd").1 =
        .panicked "runtime error: index out of range" := by
  refine ⟨(uploadVMImage_listKeysPanics wKeysErr "lk-rg" "linuxkit"
      "image.vhd").1 "authorization failed" rfl,
    (uploadVMImage_listKeysPanics wNilKeys "lk-rg" "linuxkit"
      "image.vhd").2.1 rfl,
    (uploadVMImage_listKeysPanics wEmptyKeys "lk-rg" "linuxkit"
      "image.vhd").2.2 "/images/linuxkit.vhd" ⟨10485760⟩ rfl rfl rfl rfl rfl⟩

/-- Claim C9: the error returned by `localMetaData.ToMap()` is discarded:
a run whose metadata conversion reports an error is identical — same
outcome, same trace — to the run in which conversion succeeded with the
same map, and the (possibly incomplete) map is still the one written by
every `SetBlobMetadata` call. -/
theorem uploadVMImage_toMapErrorIgnored (w : World) (rg acct img : String)
    (mp : List (String × String)) (merr : Option String)
    (mh : Option (List Nat)) (hmd : w.metaDataResult = .ok ⟨mp, merr, mh⟩) :
    uploadVMImage w rg acct img =
      uploadVMImage { w with metaDataResult := .ok ⟨mp, none, mh⟩ }
        rg acct img ∧
      ((uploadVMImage w rg acct img).2.all (setBlobMetadataMapOK w)) = true := by
  constructor
  · simp [uploadVMImage, ensureVHDSanity, getLocalVHDMetaData,
      setBlobMD5Hash, hmd]
  · have h := uploadVMImage_masterCheck w rg acct img
    simp only [masterCheck, Bool.and_eq_true] at h
    obtain ⟨⟨⟨⟨⟨⟨⟨⟨⟨⟨⟨⟨c1, c2⟩, c3⟩, c4⟩, c5⟩, c6⟩, c7⟩, c8⟩, c9⟩, c10⟩,
      c11⟩, c12⟩, c13⟩ := h
    exact c12

/-- Claim C9 (witness): a concrete world whose `ToMap()` reports an
error. -/
theorem uploadVMImage_toMapErrorIgnored_witness :
    uploadVMImage wToMapErr "lk-rg" "linuxkit" "image.vhd" =
      uploadVMImage
        { wToMapErr with metaDataResult := Except.ok ⟨[("diskmetadata", "osdisk")], none, some [77, 97, 110]⟩ }
        "lk-rg" "linuxkit" "image.vhd" ∧
      ((uploadVMImage wToMapErr "lk-rg" "linuxkit" "image.vhd").2.all
        (setBlobMetadataMapOK wToMapErr)) = true :=
  uploadVMImage_toMapErrorIgnored wToMapErr "lk-rg" "linuxkit" "image.vhd"
    [("diskmetadata", "osdisk")] (some "serialization error")
    (some [77, 97, 110]) rfl

/-- Claim C10: every invocation of `uploadVMImage` is a fresh upload: the
previously-uploaded-range set passed to `LocateUploadableRanges` is always
nil, and every `DiskUploadContext` has `Resume = false` and
`AlreadyProcessedBytes = TotalRangeLength [] = 0`, so the resume path is
never exercised. -/
theorem uploadVMImage_freshUpload (w : World) (rg acct img : String) :
    ((uploadVMImage w rg acct img).2.all locateSkipNilOK) = true ∧
      ((uploadVMImage w rg acct img).2.all uploadCallFreshOK) = true ∧
      TotalRangeLength [] = 0 := by
  have h := uploadVMImage_masterCheck w rg acct img
  simp only [masterCheck, Bool.and_eq_true] at h
  obtain ⟨⟨⟨⟨⟨⟨⟨⟨⟨⟨⟨⟨c1, c2⟩, c3⟩, c4⟩, c5⟩, c6⟩, c7⟩, c8⟩, c9⟩, c10⟩,
    c11⟩, c12⟩, c13⟩ := h
  exact ⟨c11, c10, rfl⟩
